import Mathlib

/-!
Verification development for the markmap-mcp-server repository.

The embedding translates the two source modules:
  * `src/mcp/tools/markmap-tools.ts` — the `markdown_to_mindmap` tool handler,
    its zod input schema and its declared output schema;
  * `src/index.ts` — the Express session router: the POST / GET / DELETE
    handlers on `/mcp`, the POST catch block, and the SIGINT shutdown loop.

The external rendering collaborator (`createMarkmap`, a pure function from
Markdown text to HTML text per the design document) is abstracted as a
function parameter of type `String → Bool → Except String String`: `.ok html`
models a normal return, `.error msg` models a thrown error carrying
`error.message = msg`.
-/

namespace Markmap

/-- Flat JSON literal values, enough for the field values appearing in the
tool handler's object literals. -/
inductive JLit where
  | s (v : String)
  | n (v : Int)
  | b (v : Bool)
deriving DecidableEq, Repr

/-- One element of the `content` array: `{ type: "text", text: ... }`. -/
structure TextItem where
  type : String
  text : String
deriving DecidableEq, Repr

/-- The value returned by the `markdown_to_mindmap` handler: a `content`
array, a `structuredContent` object and a `_meta` object (field `meta` here,
since a Lean field may not start with an underscore conveniently).  Objects
are association lists so that presence and absence of fields is observable. -/
structure ToolResult where
  content : List TextItem
  structuredContent : List (String × JLit)
  meta : List (String × JLit)
deriving DecidableEq, Repr

/-- The zod default for the tool's `open` input field:
`open: z.boolean().default(false)`. -/
def zOpenDefault : Bool := false

/-- Applying the zod default: an omitted `open` argument elaborates to
`zOpenDefault = false`. -/
def parseOpenArg (o : Option Bool) : Bool := o.getD zOpenDefault

/-- The `required` list of the `_meta` property in the tool's declared
`outputSchema` (markmap-tools.ts line 67). -/
def outputSchemaMetaRequired : List String :=
  ["mimeType", "contentLength", "hasHtmlContent"]

/-- The `markdown_to_mindmap` tool handler (markmap-tools.ts lines 74–119).
`createMarkmap` is the rendering collaborator; the handler always invokes it
with `openIt := false` (line 79), ignoring the caller-supplied `openArg`.
The `try` branch builds the success result from `result.content`; the
`catch` branch absorbs a thrown error into a normal result. -/
def markdown_to_mindmap (createMarkmap : String → Bool → Except String String)
    (markdown : String) (openArg : Bool) : ToolResult :=
  match createMarkmap markdown false with
  | .ok content =>
      { content := [{ type := "text", text := content }]
        structuredContent :=
          [("html", .s content), ("mimeType", .s "text/html"),
           ("contentLength", .n content.length)]
        meta :=
          [("mimeType", .s "text/html"), ("contentLength", .n content.length),
           ("hasHtmlContent", .b true)] }
  | .error msg =>
      { content := [{ type := "text", text := "Error: " ++ msg }]
        structuredContent := [("error", .s msg), ("success", .b false)]
        meta :=
          [("error", .s "Failed to generate markmap"), ("message", .s msg),
           ("success", .b false)] }

/-- Whether a tool result's `_meta` object carries every field that the
declared output schema marks as required. -/
def metaConforms (r : ToolResult) : Bool :=
  outputSchemaMetaRequired.all fun k => (r.meta.lookup k).isSome

/-- Outcome of running a tool handler inside the transport: the handler
either returns a result or throws. -/
inductive HandlerOutcome where
  | ret (r : ToolResult)
  | fault (msg : String)
deriving DecidableEq, Repr

/-- HTTP status of the POST exchange as a function of the handler outcome:
a returned result is encoded and written with status 200; only a thrown
fault reaches the catch block in index.ts, which responds 500. -/
def exchangeStatus : HandlerOutcome → Nat
  | .ret _ => 200
  | .fault _ => 500

/-- Running the `markdown_to_mindmap` handler never throws: its whole body
is wrapped in `try`/`catch`, so every collaborator outcome yields `.ret`. -/
def runMarkdownTool (createMarkmap : String → Bool → Except String String)
    (markdown : String) (openArg : Bool) : HandlerOutcome :=
  .ret (markdown_to_mindmap createMarkmap markdown openArg)

/-!
### Session router (src/index.ts)

The session table `const transports: { [key: string]: any } = {}` is a
JavaScript object keyed by session id; we embed it as an association list from
session ids to transport handles (a transport is identified by a `Nat`).
A request header `req.headers["mcp-session-id"] as string` is `Option String`:
`none` when the header is missing (JS `undefined`).  JavaScript truthiness of
the header value (`sessionId && ...`, `!sessionId`) is `headerTruthy`:
`undefined` and the empty string are falsy.
-/

/-- The session table: session id → transport handle. -/
abbrev SessionTable := List (String × Nat)

/-- JavaScript truthiness of the `mcp-session-id` header value: `undefined`
(absent header) and the empty string are falsy. -/
def headerTruthy : Option String → Bool
  | none => false
  | some s => !(s == "")

/-- JavaScript object assignment `transports[sid] = t`: overwrite any
existing binding for `sid`. -/
def insertSession (table : SessionTable) (sid : String) (t : Nat) :
    SessionTable :=
  (sid, t) :: table.filter fun p => !(p.1 == sid)

/-- JavaScript `delete transports[sid]`: remove the binding for `sid`. -/
def eraseSession (table : SessionTable) (sid : String) : SessionTable :=
  table.filter fun p => !(p.1 == sid)

/-- The `error` member of a JSON-RPC error envelope. -/
structure ErrorBody where
  code : Int
  message : String
deriving DecidableEq, Repr

/-- A JSON-RPC error envelope `{jsonrpc, error, id}`; `id := none` models
`id: null`. -/
structure ErrorEnvelope where
  jsonrpc : String
  error : ErrorBody
  id : Option Int
deriving DecidableEq, Repr

/-- The 400 envelope of the POST handler (index.ts lines 140–147). -/
def badRequestEnvelope : ErrorEnvelope :=
  { jsonrpc := "2.0"
    error := { code := -32000
               message := "Bad Request: No valid session ID provided" }
    id := none }

/-- The 500 envelope of the POST catch block (index.ts lines 172–179). -/
def internalErrorEnvelope : ErrorEnvelope :=
  { jsonrpc := "2.0"
    error := { code := -32603, message := "Internal server error" }
    id := none }

/-- Outcome of the POST `/mcp` handler's routing decision. -/
inductive PostOutcome where
  | reusedExisting (sid : String)
  | createdSession (sid : String)
  | rejected (status : Nat) (env : ErrorEnvelope)
deriving DecidableEq, Repr

/-- Result of a POST `/mcp` request: the routing outcome and the table
afterwards. -/
structure PostResult where
  outcome : PostOutcome
  table : SessionTable
deriving DecidableEq, Repr

/-- The POST `/mcp` handler (index.ts lines 100–152).  Branches in source
order: `if (sessionId && transports[sessionId])` reuse; `else if (!sessionId
&& isInitializeRequest(req.body))` create a new (server, transport) pair —
the SDK's `sessionIdGenerator` yields `freshSid` and `onsessioninitialized`
stores the transport in the table; `else` respond 400 with the fixed
envelope.  `isInit` is `isInitializeRequest(req.body)`. -/
def handlePost (table : SessionTable) (header : Option String) (isInit : Bool)
    (freshSid : String) (freshTransport : Nat) : PostResult :=
  if headerTruthy header = true ∧
      (table.lookup (header.getD "")).isSome = true then
    { outcome := .reusedExisting (header.getD ""), table := table }
  else if headerTruthy header = false ∧ isInit = true then
    { outcome := .createdSession freshSid
      table := insertSession table freshSid freshTransport }
  else
    { outcome := .rejected 400 badRequestEnvelope, table := table }

/-- Outcome of the GET `/mcp` handler. -/
inductive GetOutcome where
  | rejected400
  | streamOpened
deriving DecidableEq, Repr

/-- The GET `/mcp` handler (index.ts lines 185–234): the guard
`if (!sessionId || !transports[sessionId])` responds 400; otherwise the
request is handed to the session's transport.  The handler never mutates the
table. -/
def handleGet (table : SessionTable) (header : Option String) :
    GetOutcome × SessionTable :=
  if (headerTruthy header && (table.lookup (header.getD "")).isSome) = false
  then (.rejected400, table)
  else (.streamOpened, table)

/-- Outcome of the DELETE `/mcp` handler. -/
inductive DeleteOutcome where
  | rejected400
  | terminated
  | closeFault (responded500 : Bool)
deriving DecidableEq, Repr

/-- The DELETE `/mcp` handler (index.ts lines 237–297): the same 400 guard;
then `try { await transport.handleRequest(req, res); delete
transports[sessionId] } catch { ...; if (!res.headersSent) res.status(500)
}`.  `closeRaises` models `transport.handleRequest` throwing; in that case
the `delete` is never reached and the table is left untouched. -/
def handleDelete (table : SessionTable) (header : Option String)
    (closeRaises : Bool) (headersSent : Bool) : DeleteOutcome × SessionTable :=
  if (headerTruthy header && (table.lookup (header.getD "")).isSome) = false
  then (.rejected400, table)
  else if closeRaises then (.closeFault (!headersSent), table)
  else (.terminated, eraseSession table (header.getD ""))

/-- The POST catch block's response decision (index.ts lines 171–180): a 500
with the fixed envelope is sent iff headers have not been sent yet. -/
def postCatch (headersSent : Bool) : Option (Nat × ErrorEnvelope) :=
  if headersSent then none else some (500, internalErrorEnvelope)

/-- Number of responses written on an exchange that faulted: one already
written before the fault (when `headersSent`) plus the catch block's
response, if any. -/
def responsesSentAfterFault (headersSent : Bool) : Nat :=
  (if headersSent then 1 else 0) +
    (if (postCatch headersSent).isSome then 1 else 0)

/-- Result of the SIGINT shutdown loop: the table remaining afterwards, the
sessions for which a close was attempted (each logged `transport_closing`),
and the sessions whose close threw (each logged `transport_close_error`). -/
structure ShutdownResult where
  table : SessionTable
  attempted : List String
  failures : List String
deriving DecidableEq, Repr

/-- The SIGINT handler's cleanup loop (index.ts lines 324–345): for each
session, `try { await transports[sid].close(); delete transports[sid] }
catch { log }`.  `closeRaises sid` models `close()` throwing for that
session; then the `delete` is skipped and the entry survives, but the loop
continues with the remaining sessions. -/
def runShutdown (closeRaises : String → Bool) : SessionTable → ShutdownResult
  | [] => { table := [], attempted := [], failures := [] }
  | (sid, t) :: rest =>
      if closeRaises sid then
        { table := (sid, t) :: (runShutdown closeRaises rest).table
          attempted := sid :: (runShutdown closeRaises rest).attempted
          failures := sid :: (runShutdown closeRaises rest).failures }
      else
        { table := (runShutdown closeRaises rest).table
          attempted := sid :: (runShutdown closeRaises rest).attempted
          failures := (runShutdown closeRaises rest).failures }

/-!
### Session-initialization ordering (registration race, C3)

Modelled from the spec: the Session Transport (the SDK's
`StreamableHTTPServerTransport`, not part of this repository's sources) "on
successful initialization, invokes a caller-supplied callback with the newly
assigned session identifier … this callback must fire before the transport
begins accepting a second exchange", and a follow-up exchange can only bear
the new identifier after the transport has reported it to the client in the
initialization response.  Events observable at the router boundary: -/

/-- Events at the transport/router boundary.  `sessionInit sid` is the
`onsessioninitialized` callback firing (its body, index.ts lines 113–125,
stores the transport in the table); `initResponse sid` is the transport
reporting itself initialized to the client; `followUp sid` is a subsequent
exchange bearing `sid`; `terminate sid` is a DELETE removing the entry. -/
inductive Ev where
  | sessionInit (sid : String)
  | initResponse (sid : String)
  | followUp (sid : String)
  | terminate (sid : String)
deriving DecidableEq, Repr

/-- The event that must already have happened for an event to be possible:
an initialization response presupposes the initialized callback fired, and a
follow-up bearing `sid` presupposes the client has received the
initialization response carrying `sid`. -/
def requiredPrior : Ev → Option Ev
  | .initResponse sid => some (.sessionInit sid)
  | .followUp sid => some (.initResponse sid)
  | _ => none

/-- One event is admissible after the events in `seen`. -/
def evOk (seen : List Ev) (e : Ev) : Bool :=
  match requiredPrior e with
  | none => true
  | some d => seen.contains d

/-- Checks the ordering constraints along a trace, `seen` being the events
already processed. -/
def validFrom (seen : List Ev) : List Ev → Bool
  | [] => true
  | e :: rest => evOk seen e && validFrom (seen ++ [e]) rest

/-- A trace respects the transport's initialization ordering contract. -/
def validTrace (evs : List Ev) : Bool := validFrom [] evs

/-- Effect of one event on the set of registered session ids: the
`onsessioninitialized` callback registers, DELETE removes. -/
def stepTable (tbl : List String) : Ev → List String
  | .sessionInit sid => if sid ∈ tbl then tbl else sid :: tbl
  | .terminate sid => tbl.erase sid
  | _ => tbl

/-- The registered session ids after processing a list of events, starting
from the empty table. -/
def tableAfter (evs : List Ev) : List String := evs.foldl stepTable []

/-!
### Helper lemmas
-/

/-- Shape of the handler result when the collaborator returns normally. -/
theorem markdown_to_mindmap_ok (cm : String → Bool → Except String String)
    (md : String) (oa : Bool) (html : String)
    (hok : cm md false = .ok html) :
    markdown_to_mindmap cm md oa =
      { content := [{ type := "text", text := html }]
        structuredContent :=
          [("html", .s html), ("mimeType", .s "text/html"),
           ("contentLength", .n html.length)]
        meta :=
          [("mimeType", .s "text/html"), ("contentLength", .n html.length),
           ("hasHtmlContent", .b true)] } := by
  unfold markdown_to_mindmap
  rw [hok]

/-- Shape of the handler result when the collaborator throws. -/
theorem markdown_to_mindmap_err (cm : String → Bool → Except String String)
    (md : String) (oa : Bool) (msg : String)
    (herr : cm md false = .error msg) :
    markdown_to_mindmap cm md oa =
      { content := [{ type := "text", text := "Error: " ++ msg }]
        structuredContent := [("error", .s msg), ("success", .b false)]
        meta :=
          [("error", .s "Failed to generate markmap"), ("message", .s msg),
           ("success", .b false)] } := by
  unfold markdown_to_mindmap
  rw [herr]

/-!
### Claim theorems for the conversion tool
-/

/-- C5 (counterexample): on the success path the structured payload carries
no `success` field at all — for the round-trip input of the claim and a
collaborator that succeeds, looking up `success` in `structuredContent`
yields nothing, so the claim's "structured result with `success` indicating
completion" is false as stated. -/
theorem c5_counterexample_no_success_field :
    ((markdown_to_mindmap (fun _ _ => .ok "<html>mindmap</html>")
        "# Title\n- a\n- b" false).structuredContent.lookup "success") =
      none := by
  rfl

/-- C5 (amended): for every Markdown input on which the rendering
collaborator succeeds with non-empty HTML, the tool returns — normally, via
`.ret` — a structured result whose `html` field holds the (non-empty) HTML,
whose `contentLength` equals `html`'s length, whose MIME type tag is
`text/html`, and whose textual content duplicates the same HTML string; the
structured payload however contains no `success` field (completion is
signalled by `hasHtmlContent` in `_meta` instead). -/
theorem c5_success_result_shape (cm : String → Bool → Except String String)
    (md : String) (oa : Bool) (html : String)
    (hok : cm md false = .ok html) (hne : html ≠ "") :
    (markdown_to_mindmap cm md oa).structuredContent.lookup "html" =
        some (.s html) ∧
    html ≠ "" ∧
    (markdown_to_mindmap cm md oa).structuredContent.lookup "contentLength" =
        some (.n html.length) ∧
    (markdown_to_mindmap cm md oa).structuredContent.lookup "mimeType" =
        some (.s "text/html") ∧
    (markdown_to_mindmap cm md oa).content =
        [{ type := "text", text := html }] ∧
    (markdown_to_mindmap cm md oa).structuredContent.lookup "success" =
        none ∧
    runMarkdownTool cm md oa = .ret (markdown_to_mindmap cm md oa) := by
  rw [markdown_to_mindmap_ok cm md oa html hok]
  refine ⟨rfl, hne, rfl, rfl, rfl, rfl, ?_⟩
  unfold runMarkdownTool
  rw [markdown_to_mindmap_ok cm md oa html hok]

/-- C5 witness at a concrete collaborator and the claim's round-trip
input. -/
theorem c5_success_result_shape_witness :
    ((fun (_ : String) (_ : Bool) =>
        (Except.ok "<html>m</html>" : Except String String)) "# Title\n- a\n- b"
        false = Except.ok "<html>m</html>") ∧
    ("<html>m</html>" : String) ≠ "" ∧
    ((markdown_to_mindmap
        (fun _ _ => .ok "<html>m</html>") "# Title\n- a\n- b" true)
          |>.structuredContent.lookup "html") = some (.s "<html>m</html>") :=
  ⟨rfl, by decide,
    (c5_success_result_shape (fun _ _ => .ok "<html>m</html>")
        "# Title\n- a\n- b" true "<html>m</html>" rfl (by decide)).1⟩

/-- C6: when the rendering collaborator throws with message `msg` (non-empty
as a thrown error message), the handler does not raise — it returns `.ret`,
so the exchange completes with HTTP status 200 — and the structured payload
is exactly `{error: msg, success: false}` with the textual content `"Error: "
++ msg`. -/
theorem c6_failure_reported_as_result
    (cm : String → Bool → Except String String) (md : String) (oa : Bool)
    (msg : String) (herr : cm md false = .error msg) (hmsg : msg ≠ "") :
    (markdown_to_mindmap cm md oa).structuredContent =
        [("error", .s msg), ("success", .b false)] ∧
    msg ≠ "" ∧
    runMarkdownTool cm md oa = .ret (markdown_to_mindmap cm md oa) ∧
    exchangeStatus (runMarkdownTool cm md oa) = 200 := by
  rw [markdown_to_mindmap_err cm md oa msg herr]
  refine ⟨rfl, hmsg, ?_, rfl⟩
  unfold runMarkdownTool
  rw [markdown_to_mindmap_err cm md oa msg herr]

/-- C6 witness at a concrete throwing collaborator. -/
theorem c6_failure_reported_as_result_witness :
    ((fun (_ : String) (_ : Bool) =>
        (Except.error "boom" : Except String String)) "# t" false =
      Except.error "boom") ∧
    ("boom" : String) ≠ "" ∧
    exchangeStatus (runMarkdownTool (fun _ _ => .error "boom") "# t" false) =
      200 :=
  ⟨rfl, by decide,
    (c6_failure_reported_as_result (fun _ _ => .error "boom") "# t" false
        "boom" rfl (by decide)).2.2.2⟩

/-- C8: the open-in-viewer flag defaults to `false` when omitted, and the
handler's result depends on the collaborator only through its value at
`openIt = false` — in particular two calls differing only in the
caller-supplied open value produce identical results, since the collaborator
is always invoked with the open flag `false`. -/
theorem c8_open_flag_suppressed :
    parseOpenArg none = false ∧ zOpenDefault = false ∧
    ∀ (cm cm' : String → Bool → Except String String) (md : String)
      (oa oa' : Bool), cm md false = cm' md false →
        markdown_to_mindmap cm md oa = markdown_to_mindmap cm' md oa' := by
  refine ⟨rfl, rfl, ?_⟩
  intro cm cm' md oa oa' h
  unfold markdown_to_mindmap
  rw [h]

/-- C8 witness: the same collaborator under opposite caller-supplied open
values gives identical results. -/
theorem c8_open_flag_suppressed_witness :
    ((fun (_ : String) (_ : Bool) =>
        (Except.ok "<html/>" : Except String String)) "# t" false =
      (fun (_ : String) (_ : Bool) =>
        (Except.ok "<html/>" : Except String String)) "# t" false) ∧
    markdown_to_mindmap (fun _ _ => .ok "<html/>") "# t" true =
      markdown_to_mindmap (fun _ _ => .ok "<html/>") "# t" false :=
  ⟨rfl, c8_open_flag_suppressed.2.2 _ _ "# t" true false rfl⟩

/-- C10: on the failure path the `_meta` object carries exactly the fields
`error`, `message`, `success`, and none of the three fields the registered
output schema declares as required for `_meta` (`mimeType`, `contentLength`,
`hasHtmlContent`), so the result does not conform to the tool's own declared
output schema. -/
theorem c10_failure_meta_violates_schema
    (cm : String → Bool → Except String String) (md : String) (oa : Bool)
    (msg : String) (herr : cm md false = .error msg) :
    (markdown_to_mindmap cm md oa).meta.map Prod.fst =
        ["error", "message", "success"] ∧
    outputSchemaMetaRequired = ["mimeType", "contentLength", "hasHtmlContent"] ∧
    (∀ k ∈ outputSchemaMetaRequired,
        (markdown_to_mindmap cm md oa).meta.lookup k = none) ∧
    metaConforms (markdown_to_mindmap cm md oa) = false := by
  rw [markdown_to_mindmap_err cm md oa msg herr]
  refine ⟨rfl, rfl, ?_, rfl⟩
  intro k hk
  fin_cases hk <;> rfl

/-- C10 witness at a concrete throwing collaborator. -/
theorem c10_failure_meta_violates_schema_witness :
    ((fun (_ : String) (_ : Bool) =>
        (Except.error "boom" : Except String String)) "# t" false =
      Except.error "boom") ∧
    metaConforms (markdown_to_mindmap (fun _ _ => .error "boom") "# t" false) =
      false :=
  ⟨rfl,
    (c10_failure_meta_violates_schema (fun _ _ => .error "boom") "# t" false
        "boom" rfl).2.2.2⟩

/-!
### Claim theorems for the session router
-/

/-- Overwriting insertion preserves distinctness of the table's keys. -/
theorem insertSession_keys_nodup (table : SessionTable) (sid : String)
    (t : Nat) (h : (table.map Prod.fst).Nodup) :
    ((insertSession table sid t).map Prod.fst).Nodup := by
  unfold insertSession
  rw [List.map_cons, List.nodup_cons]
  constructor
  · intro hmem
    rcases List.mem_map.mp hmem with ⟨q, hq, hfst⟩
    have hp := List.of_mem_filter hq
    simp only [Bool.not_eq_true', beq_eq_false_iff_ne] at hp
    exact hp hfst
  · exact h.sublist ((List.filter_sublist table).map Prod.fst)

/-- C1 (counterexample): a POST whose `mcp-session-id` header is present but
empty — hence names no session — and whose body is an initialization frame
is not rejected as the claim's third case demands: the handler falls into
the creation branch (JavaScript `!sessionId` is true for the empty string)
and a session is created. -/
theorem c1_counterexample_empty_header :
    handlePost [] (some "") true "u1" 7 =
      { outcome := .createdSession "u1", table := [("u1", 7)] } ∧
    (handlePost [] (some "") true "u1" 7).outcome ≠
      .rejected 400 badRequestEnvelope ∧
    (handlePost [] (some "") true "u1" 7).table ≠ [] := by
  decide

/-- C1 (amended): for every POST, with header presence read as JavaScript
truthiness (absent and empty headers coincide): (1) a truthy header naming a
table entry reuses it and leaves the table unchanged; (2) a falsy header
with an initialization body creates a session registered under the fresh
identifier; (3) in all remaining cases the request is rejected with 400 and
the exact `-32000` envelope and the table is unchanged; and the table's keys
stay pairwise distinct. -/
theorem c1_post_trichotomy (table : SessionTable) (header : Option String)
    (isInit : Bool) (freshSid : String) (freshTransport : Nat)
    (hnodup : (table.map Prod.fst).Nodup) :
    ((headerTruthy header = true ∧
        (table.lookup (header.getD "")).isSome = true) →
      handlePost table header isInit freshSid freshTransport =
        { outcome := .reusedExisting (header.getD ""), table := table }) ∧
    ((headerTruthy header = false ∧ isInit = true) →
      (handlePost table header isInit freshSid freshTransport).outcome =
          .createdSession freshSid ∧
        (handlePost table header isInit freshSid freshTransport).table.lookup
            freshSid = some freshTransport) ∧
    (((headerTruthy header = true ∧
          (table.lookup (header.getD "")).isSome = false) ∨
        (headerTruthy header = false ∧ isInit = false)) →
      handlePost table header isInit freshSid freshTransport =
        { outcome := .rejected 400 badRequestEnvelope, table := table }) ∧
    ((handlePost table header isInit freshSid freshTransport).table.map
        Prod.fst).Nodup := by
  by_cases h1 : headerTruthy header = true ∧
      (table.lookup (header.getD "")).isSome = true
  · have hp : handlePost table header isInit freshSid freshTransport =
        { outcome := .reusedExisting (header.getD ""), table := table } := by
      unfold handlePost
      rw [if_pos h1]
    refine ⟨fun _ => hp, ?_, ?_, ?_⟩
    · rintro ⟨hf, -⟩
      rw [hf] at h1
      exact absurd h1.1 (by decide)
    · rintro (⟨-, hns⟩ | ⟨hf, -⟩)
      · rw [hns] at h1
        exact absurd h1.2 (by decide)
      · rw [hf] at h1
        exact absurd h1.1 (by decide)
    · rw [hp]
      exact hnodup
  · by_cases h2 : headerTruthy header = false ∧ isInit = true
    · have hp : handlePost table header isInit freshSid freshTransport =
          { outcome := .createdSession freshSid
            table := insertSession table freshSid freshTransport } := by
        unfold handlePost
        rw [if_neg h1, if_pos h2]
      refine ⟨fun hc => absurd hc h1, fun _ => ?_, ?_, ?_⟩
      · refine ⟨by rw [hp], ?_⟩
        rw [hp]
        show (insertSession table freshSid freshTransport).lookup freshSid = _
        unfold insertSession
        simp [List.lookup]
      · rintro (⟨ht, -⟩ | ⟨-, hni⟩)
        · rw [ht] at h2
          exact absurd h2.1 (by decide)
        · rw [hni] at h2
          exact absurd h2.2 (by decide)
      · rw [hp]
        exact insertSession_keys_nodup table freshSid freshTransport hnodup
    · have hp : handlePost table header isInit freshSid freshTransport =
          { outcome := .rejected 400 badRequestEnvelope, table := table } := by
        unfold handlePost
        rw [if_neg h1, if_neg h2]
      refine ⟨fun hc => absurd hc h1, fun hc => absurd hc h2, fun _ => hp, ?_⟩
      rw [hp]
      exact hnodup

/-- C1 witness: creation branch on the empty table with no header. -/
theorem c1_post_trichotomy_witness :
    (([] : SessionTable).map Prod.fst).Nodup ∧
    (headerTruthy none = false ∧ true = true) ∧
    ((handlePost [] none true "u1" 7).outcome = .createdSession "u1" ∧
      (handlePost [] none true "u1" 7).table.lookup "u1" = some 7) :=
  ⟨List.nodup_nil, ⟨rfl, rfl⟩,
    (c1_post_trichotomy [] none true "u1" 7 List.nodup_nil).2.1 ⟨rfl, rfl⟩⟩

/-- C2 (the code evaluated at the failing input): a DELETE for the known
session `s1` whose transport-level close raises is caught, the response is
the 500 branch, and the table still contains `s1` — the `delete
transports[sessionId]` inside the `try` is never reached, so the entry
leaks, contrary to the claim's unconditional removal. -/
theorem c2_delete_close_fault_leaks_entry :
    handleDelete [("s1", 5)] (some "s1") true false =
      (.closeFault true, [("s1", 5)]) ∧
    (handleDelete [("s1", 5)] (some "s1") true false).2.lookup "s1" =
      some 5 := by
  decide

/-- C7: a GET or DELETE whose `mcp-session-id` header is absent or does not
name a session in the table is answered with 400 and leaves the table
exactly as it was — no entry is created, removed, or modified. -/
theorem c7_unknown_session_rejected_without_mutation (table : SessionTable)
    (header : Option String) (closeRaises headersSent : Bool)
    (h : header = none ∨ table.lookup (header.getD "") = none) :
    handleGet table header = (.rejected400, table) ∧
    handleDelete table header closeRaises headersSent =
      (.rejected400, table) := by
  have hguard :
      (headerTruthy header && (table.lookup (header.getD "")).isSome) =
        false := by
    rcases h with rfl | hl
    · rfl
    · rw [hl]
      simp
  constructor
  · unfold handleGet
    rw [if_pos hguard]
  · unfold handleDelete
    rw [if_pos hguard]

/-- C7 witness: missing header on the empty table. -/
theorem c7_unknown_session_rejected_without_mutation_witness :
    ((none : Option String) = none ∨
      ([] : SessionTable).lookup ((none : Option String).getD "") = none) ∧
    handleGet [] none = (.rejected400, []) :=
  ⟨Or.inl rfl,
    (c7_unknown_session_rejected_without_mutation [] none false false
        (Or.inl rfl)).1⟩

/-- C9: on an unhandled fault the POST catch block responds 500 with the
exact `-32603` envelope iff no response has been sent yet; if headers were
already sent it sends nothing; either way exactly one response is written on
the exchange. -/
theorem c9_internal_error_sent_at_most_once :
    ∀ headersSent : Bool,
      (postCatch headersSent = some (500, internalErrorEnvelope) ↔
        headersSent = false) ∧
      (postCatch headersSent = none ↔ headersSent = true) ∧
      responsesSentAfterFault headersSent = 1 := by
  decide

/-- C4 (counterexample): when the only live session's transport close raises
during SIGINT shutdown, the `delete` inside the `try` is skipped, so the
table is not empty immediately after the cleanup loop — contrary to the
claim. -/
theorem c4_counterexample_close_failure_leaves_entry :
    (runShutdown (fun _ => true) [("s1", 5)]).table = [("s1", 5)] ∧
    (runShutdown (fun _ => true) [("s1", 5)]).table ≠ [] := by
  decide

/-- C4 (amended): the SIGINT cleanup loop attempts to close every live
session in table order (each attempt logged), a close failure is logged and
does not prevent closing the remaining sessions, entries whose close
succeeded are removed, and afterwards the table holds exactly the entries
whose close raised — in particular it is empty whenever every close
succeeds. -/
theorem c4_shutdown_best_effort (table : SessionTable)
    (closeRaises : String → Bool) :
    (runShutdown closeRaises table).attempted = table.map Prod.fst ∧
    (runShutdown closeRaises table).failures =
      (table.map Prod.fst).filter closeRaises ∧
    (runShutdown closeRaises table).table =
      table.filter (fun p => closeRaises p.1) ∧
    ((∀ p ∈ table, closeRaises p.1 = false) →
      (runShutdown closeRaises table).table = []) := by
  induction table with
  | nil => exact ⟨rfl, rfl, rfl, fun _ => rfl⟩
  | cons hd tl ih =>
    obtain ⟨sid, t⟩ := hd
    obtain ⟨ha, hf, ht, hall⟩ := ih
    by_cases hc : closeRaises sid = true
    · have hstep : runShutdown closeRaises ((sid, t) :: tl) =
          { table := (sid, t) :: (runShutdown closeRaises tl).table
            attempted := sid :: (runShutdown closeRaises tl).attempted
            failures := sid :: (runShutdown closeRaises tl).failures } := by
        simp only [runShutdown]
        rw [if_pos hc]
      refine ⟨?_, ?_, ?_, ?_⟩
      · rw [hstep]
        simp only [List.map_cons]
        rw [ha]
      · rw [hstep]
        simp only [List.map_cons, List.filter_cons, hc, if_true]
        rw [hf]
      · rw [hstep]
        simp only [List.filter_cons, hc, if_true]
        rw [ht]
      · intro hnone
        exact absurd (hnone (sid, t) (List.mem_cons_self _ _)) (by
          rw [hc]
          decide)
    · rw [Bool.not_eq_true] at hc
      have hstep : runShutdown closeRaises ((sid, t) :: tl) =
          { table := (runShutdown closeRaises tl).table
            attempted := sid :: (runShutdown closeRaises tl).attempted
            failures := (runShutdown closeRaises tl).failures } := by
        simp only [runShutdown]
        rw [if_neg (by rw [hc]; decide)]
      refine ⟨?_, ?_, ?_, ?_⟩
      · rw [hstep]
        simp only [List.map_cons]
        rw [ha]
      · rw [hstep]
        simp only [List.map_cons, List.filter_cons, hc, if_false]
        exact hf
      · rw [hstep]
        simp only [List.filter_cons, hc, if_false]
        exact ht
      · intro hnone
        rw [hstep]
        exact hall fun p hp => hnone p (List.mem_cons_of_mem _ hp)

/-- C4 witness: with a collaborator whose closes all succeed, the table is
empty after shutdown. -/
theorem c4_shutdown_best_effort_witness :
    (∀ p ∈ [("s1", (5 : Nat))], (fun (_ : String) => false) p.1 = false) ∧
    (runShutdown (fun _ => false) [("s1", 5)]).table = [] :=
  ⟨fun _ _ => rfl,
    (c4_shutdown_best_effort [("s1", 5)] (fun _ => false)).2.2.2
      fun _ _ => rfl⟩

/-!
### Trace lemmas for the initialization-ordering claim
-/

/-- Splitting a valid trace at an append point. -/
theorem validFrom_append (l : List Ev) :
    ∀ (seen r : List Ev), validFrom seen (l ++ r) = true →
      validFrom seen l = true ∧ validFrom (seen ++ l) r = true := by
  induction l with
  | nil =>
    intro seen r h
    exact ⟨rfl, by simpa using h⟩
  | cons e rest ih =>
    intro seen r h
    rw [List.cons_append] at h
    unfold validFrom at h
    rw [Bool.and_eq_true] at h
    obtain ⟨h1, h2⟩ := h
    obtain ⟨ha, hb⟩ := ih (seen ++ [e]) r h2
    refine ⟨?_, ?_⟩
    · unfold validFrom
      rw [Bool.and_eq_true]
      exact ⟨h1, ha⟩
    · rw [List.append_cons seen e rest]
      exact hb

/-- In a valid trace, the event an occurrence requires has already happened
in the prefix before it. -/
theorem validTrace_prefix_mem (p : List Ev) (e : Ev) (rest : List Ev)
    (d : Ev) (hreq : requiredPrior e = some d)
    (hv : validTrace (p ++ e :: rest) = true) : d ∈ p := by
  unfold validTrace at hv
  obtain ⟨-, hv2⟩ := validFrom_append p [] (e :: rest) hv
  rw [List.nil_append] at hv2
  unfold validFrom at hv2
  rw [Bool.and_eq_true] at hv2
  have h1 := hv2.1
  unfold evOk at h1
  rw [hreq] at h1
  simpa using h1

/-- A registered identifier stays in the table along events that do not
terminate it. -/
theorem mem_foldl_stepTable_of_mem (sid : String) (l : List Ev) :
    ∀ tbl : List String, sid ∈ tbl → Ev.terminate sid ∉ l →
      sid ∈ l.foldl stepTable tbl := by
  induction l with
  | nil =>
    intro tbl hmem _
    simpa using hmem
  | cons e rest ih =>
    intro tbl hmem hnt
    rw [List.foldl_cons]
    refine ih (stepTable tbl e) ?_ fun h => hnt (List.mem_cons_of_mem _ h)
    cases e with
    | sessionInit s =>
      show sid ∈ (if s ∈ tbl then tbl else s :: tbl)
      split
      · exact hmem
      · exact List.mem_cons_of_mem _ hmem
    | initResponse s => exact hmem
    | followUp s => exact hmem
    | terminate s =>
      have hne : sid ≠ s := by
        intro h
        exact hnt (by rw [h]; exact List.mem_cons_self _ _)
      exact (List.mem_erase_of_ne hne).mpr hmem

/-- Once the `onsessioninitialized` callback has fired for `sid` and no
DELETE for `sid` intervenes, `sid` is in the table. -/
theorem mem_foldl_stepTable_of_init (sid : String) (l : List Ev) :
    ∀ tbl : List String, Ev.sessionInit sid ∈ l → Ev.terminate sid ∉ l →
      sid ∈ l.foldl stepTable tbl := by
  induction l with
  | nil =>
    intro tbl h _
    cases h
  | cons e rest ih =>
    intro tbl hinit hnt
    rw [List.foldl_cons]
    rcases List.mem_cons.mp hinit with heq | hmem
    · refine mem_foldl_stepTable_of_mem sid rest (stepTable tbl e) ?_
        fun h => hnt (List.mem_cons_of_mem _ h)
      rw [← heq]
      show sid ∈ (if sid ∈ tbl then tbl else sid :: tbl)
      split
      · assumption
      · exact List.mem_cons_self _ _
    · exact ih (stepTable tbl e) hmem fun h => hnt (List.mem_cons_of_mem _ h)

/-- C3: in every trace respecting the transport's initialization contract,
(a) the `onsessioninitialized` callback — whose body performs the table
registration — fires strictly before the transport reports itself
initialized, and (b) at any follow-up exchange bearing the new identifier
(and not preceded by a DELETE of it) the table already contains the
identifier, so no follow-up request can arrive before the table entry
exists. -/
theorem c3_registration_precedes_followup :
    (∀ (p : List Ev) (sid : String) (rest : List Ev),
        validTrace (p ++ Ev.initResponse sid :: rest) = true →
        Ev.sessionInit sid ∈ p) ∧
    (∀ (p : List Ev) (sid : String) (rest : List Ev),
        validTrace (p ++ Ev.followUp sid :: rest) = true →
        Ev.terminate sid ∉ p → sid ∈ tableAfter p) := by
  constructor
  · intro p sid rest hv
    exact validTrace_prefix_mem p (Ev.initResponse sid) rest
      (Ev.sessionInit sid) rfl hv
  · intro p sid rest hv hnt
    have hresp : Ev.initResponse sid ∈ p :=
      validTrace_prefix_mem p (Ev.followUp sid) rest (Ev.initResponse sid)
        rfl hv
    obtain ⟨p1, p2, rfl⟩ := List.append_of_mem hresp
    have hv' : validTrace
        (p1 ++ Ev.initResponse sid :: (p2 ++ Ev.followUp sid :: rest)) =
          true := by
      simpa [List.append_assoc, List.cons_append] using hv
    have hinit : Ev.sessionInit sid ∈ p1 :=
      validTrace_prefix_mem p1 (Ev.initResponse sid)
        (p2 ++ Ev.followUp sid :: rest) (Ev.sessionInit sid) rfl hv'
    exact mem_foldl_stepTable_of_init sid (p1 ++ Ev.initResponse sid :: p2) []
      (List.mem_append_left _ hinit) hnt

/-- C3 witness on a concrete three-event trace. -/
theorem c3_registration_precedes_followup_witness :
    (validTrace ([Ev.sessionInit "s", Ev.initResponse "s"] ++
        Ev.followUp "s" :: []) = true) ∧
    Ev.terminate "s" ∉ [Ev.sessionInit "s", Ev.initResponse "s"] ∧
    "s" ∈ tableAfter [Ev.sessionInit "s", Ev.initResponse "s"] :=
  ⟨by decide, by decide,
    c3_registration_precedes_followup.2
      [Ev.sessionInit "s", Ev.initResponse "s"] "s" [] (by decide)
      (by decide)⟩

end Markmap
